import Mathlib

/-!
Shallow embedding of `src/aio_pika/pika/adapters/base_connection.py`
(class `BaseConnection`), a non-blocking socket transport adapter.

Pure Python state (socket handle, event bitmask, outbound frame queue,
protocol connection state) becomes the record `BaseConn.TState`; socket
syscall outcomes (`send`, `recv`, `do_handshake`, `connect`) are supplied
as explicit traces of results; side effects on external collaborators
(heartbeat timer, ioloop, the protocol layer's callbacks) are recorded in
an action list; Python exceptions become an `Option Exn` result component.
-/

namespace BaseConn

/-- Event bit constant from the source: `READ = 0x0001`. -/
def READ : Nat := 0x0001

/-- Event bit constant from the source: `WRITE = 0x0004`. -/
def WRITE : Nat := 0x0004

/-- Event bit constant from the source: `ERROR = 0x0008`. -/
def ERROR : Nat := 0x0008

/-- Linux errno value `EBADF`. -/
def EBADF : Nat := 9

/-- Linux errno value `ECONNABORTED`. -/
def ECONNABORTED : Nat := 103

/-- Linux errno value `EPIPE`. -/
def EPIPE : Nat := 32

/-- Linux errno value `EWOULDBLOCK` (same value as `EAGAIN`). -/
def EWOULDBLOCK : Nat := 11

/-- Linux errno value `EAGAIN`. -/
def EAGAIN : Nat := 11

/-- Linux errno value `EINTR`. -/
def EINTR : Nat := 4

/-- CPython constant `ssl.SSL_ERROR_WANT_READ`. -/
def SSL_ERROR_WANT_READ : Nat := 2

/-- CPython constant `ssl.SSL_ERROR_WANT_WRITE`. -/
def SSL_ERROR_WANT_WRITE : Nat := 3

/-- Source line 26: `ERRORS_TO_ABORT = [errno.EBADF, errno.ECONNABORTED, errno.EPIPE]`. -/
def ERRORS_TO_ABORT : List Nat := [EBADF, ECONNABORTED, EPIPE]

/-- Source line 27: `ERRORS_TO_IGNORE = [errno.EWOULDBLOCK, errno.EAGAIN, errno.EINTR]`. -/
def ERRORS_TO_IGNORE : List Nat := [EWOULDBLOCK, EAGAIN, EINTR]

/-- Source lines 59 and 451: `base_events = READ | ERROR`. -/
def base_events : Nat := READ ||| ERROR

/-- Modelled from the spec: the protocol-layer `ConnectionPhase` enumeration
(`pika/connection.py`, which defines `CONNECTION_PROTOCOL`,
`CONNECTION_START`, `CONNECTION_TUNE`, `is_open`, `is_closed`, `is_closing`,
is not under `src/`).  Spec section 3 lists the phases
{Resolving, Connecting, ProtocolHandshake, Authenticating, Tuning, Open,
Closing, Closed}; the source's `CONNECTION_PROTOCOL` is the
protocol-handshake phase, `CONNECTION_START` the authenticating phase and
`CONNECTION_TUNE` the tuning phase. -/
inductive Phase
| resolving
| connecting
| protocolHandshake
| authenticating
| tuning
| opened
| closing
| closed
deriving DecidableEq

/-- Modelled from the spec: the protocol layer's `is_open` accessor
(connection is in the open phase). -/
def Phase.is_open (p : Phase) : Bool := p = Phase.opened

/-- Modelled from the spec: the protocol layer's `is_closed` accessor. -/
def Phase.is_closed (p : Phase) : Bool := p = Phase.closed

/-- Modelled from the spec: the protocol layer's `is_closing` accessor. -/
def Phase.is_closing (p : Phase) : Bool := p = Phase.closing

/-- An inbound `error_value` as inspected by `_handle_error` /
`_get_error_code`: whether it is truthy, whether `'timed out'` occurs in
`str(error_value)`, its `errno` attribute, whether it is an `ssl.SSLError`,
and its `args[0]`. -/
structure ErrVal where
  present : Bool
  strTimedOut : Bool
  errnoCode : Option Nat
  isSSLError : Bool
  sslArg : Nat
deriving DecidableEq

/-- Exceptions the embedded code can raise. -/
inductive Exn
| incompatibleProtocolError
| probableAuthenticationError
| probableAccessDeniedError
| socketTimeout
| sslHandshakeError
deriving DecidableEq

/-- The adapter state: `self.socket` (present or `None`), `self.event_state`,
`self.outbound_buffer` (FIFO of byte frames, bytes as `Nat`),
the protocol layer's connection state, `self.params.ssl`,
`self.stop_ioloop_on_close` and whether `self.ioloop` is set. -/
structure TState where
  socket : Bool
  event_state : Nat
  outbound_buffer : List (List Nat)
  connection_state : Phase
  sslEnabled : Bool
  stop_ioloop_on_close : Bool
  hasIoloop : Bool
deriving DecidableEq

/-- Observable actions on external collaborators, in execution order. -/
inductive Act
| removeHeartbeat
| shutdownSocket
| closeSocket
| checkState
| ioloopStop
| initState
| connectionClosed
| deliver (d : List Nat)
| sendCall (f : List Nat)
| updateHandler (m : Nat)
| handleTimeout
deriving DecidableEq

/-- Result of one embedded call: final state, the recorded actions and the
exception propagating out of the call, when any. -/
structure Step where
  st : TState
  acts : List Act
  exn : Option Exn
deriving DecidableEq

/-- Log emitted by `_check_state_on_disconnect` when it does not raise. -/
inductive CheckLog
| openWarn
| unknownWarn
| silent
deriving DecidableEq

/-- Source lines 148-170, `_check_state_on_disconnect`: maps the connection
state at disconnect time to a raised exception or a log message. -/
def check_state_on_disconnect (p : Phase) : Option Exn × CheckLog :=
  if p = Phase.protocolHandshake then
    (some Exn.incompatibleProtocolError, CheckLog.silent)
  else if p = Phase.authenticating then
    (some Exn.probableAuthenticationError, CheckLog.silent)
  else if p = Phase.tuning then
    (some Exn.probableAccessDeniedError, CheckLog.silent)
  else if p.is_open then
    (none, CheckLog.openWarn)
  else if !p.is_closed && !p.is_closing then
    (none, CheckLog.unknownWarn)
  else
    (none, CheckLog.silent)

/-- Source lines 172-180, `_cleanup_socket`: if a socket is present, shut it
down (an `OSError` from `shutdown` is swallowed, so the result does not
depend on `shutdown_err`), close it, and set the handle to `None`. -/
def cleanup_socket (shutdown_err : Bool) (s : TState) : TState × List Act :=
  if s.socket then
    ({ s with socket := false }, [Act.shutdownSocket, Act.closeSocket])
  else (s, [])

/-- Source lines 278-286, `_handle_ioloop_stop`: stop the ioloop iff
configured to do so and an ioloop is set (`WARN_ABOUT_IOLOOP` is `False`
on this class, so the `elif` branch only logs). -/
def handle_ioloop_stop (s : TState) : List Act :=
  if s.stop_ioloop_on_close && s.hasIoloop then [Act.ioloopStop] else []

/-- Source lines 444-453, `_init_connection_state`: reset the event mask to
`base_events` and drop the socket handle.  The `super()` part is Modelled
from the spec: spec section 4.5 step 4 says the component's internal state
is reset so the instance is reusable for a fresh open, and spec section 8
says pending writes are discarded by this reset, so the outbound buffer is
cleared and the connection state returns to the closed phase. -/
def init_connection_state (s : TState) : TState :=
  { s with
    connection_state := Phase.closed
    outbound_buffer := []
    event_state := base_events
    socket := false }

/-- Source lines 136-146, `_adapter_disconnect`: remove the heartbeat
(`_remove_heartbeat` is Modelled from the spec: spec section 4.5 step 1,
cancel the pending heartbeat timer — `pika/connection.py` is not under
`src/`), clean up the socket, check the state (which may raise); finally,
regardless of a raised exception, stop the ioloop when configured and
re-initialize the connection state. -/
def adapter_disconnect (shutdown_err : Bool) (s : TState) : Step :=
  let cu := cleanup_socket shutdown_err s
  let chk := check_state_on_disconnect cu.1.connection_state
  let stopActs := handle_ioloop_stop cu.1
  { st := init_connection_state cu.1
    acts := Act.removeHeartbeat :: cu.2 ++ [Act.checkState] ++ stopActs ++ [Act.initState]
    exn := chk.1 }

/-- Source lines 272-276, `_handle_disconnect`: run `_adapter_disconnect`,
then call `_on_connection_closed` (Modelled from the spec: the protocol
layer's `connectionClosed` callback — `pika/connection.py` is not under
`src/`).  When `_adapter_disconnect` raises, the callback is not reached. -/
def handle_disconnect (shutdown_err : Bool) (s : TState) : Step :=
  let r := adapter_disconnect shutdown_err s
  match r.exn with
  | some _ => r
  | none => { r with acts := r.acts ++ [Act.connectionClosed] }

/-- Source lines 249-263, `_get_error_code`: `None` for a falsy error value,
otherwise the `errno` attribute. -/
def get_error_code (ev : ErrVal) : Option Nat :=
  if !ev.present then none else ev.errnoCode

/-- Source lines 288-325, `_handle_error`: raise `socket.timeout` when the
error's string contains `'timed out'`; return when no error code exists;
return on codes in `ERRORS_TO_IGNORE`; otherwise log (abort codes), or for
`ssl.SSLError` with SSL enabled update `event_state` to `READ`/`WRITE` on
`SSL_ERROR_WANT_READ`/`SSL_ERROR_WANT_WRITE`; in all those remaining cases
fall through to `_handle_disconnect`. -/
def handle_error (shutdown_err : Bool) (ev : ErrVal) (s : TState) : Step :=
  if ev.strTimedOut then
    { st := s, acts := [], exn := some Exn.socketTimeout }
  else
    match get_error_code ev with
    | none => { st := s, acts := [], exn := none }
    | some code =>
      if code = 0 then { st := s, acts := [], exn := none }
      else if code ∈ ERRORS_TO_IGNORE then { st := s, acts := [], exn := none }
      else
        let s1 :=
          if code ∈ ERRORS_TO_ABORT then s
          else if s.sslEnabled && ev.isSSLError then
            if ev.sslArg = SSL_ERROR_WANT_READ then { s with event_state := READ }
            else if ev.sslArg = SSL_ERROR_WANT_WRITE then { s with event_state := WRITE }
            else s
          else s
        handle_disconnect shutdown_err s1

/-- Outcome of one `socket.send` syscall: number of bytes accepted, a
`socket.timeout`, or an `OSError` (whose `errno` may be `EINTR`,
`EAGAIN`/`EWOULDBLOCK`, or anything else). -/
inductive SendRes
| sent (n : Nat)
| timeout
| osErr (ev : ErrVal)
deriving DecidableEq

/-- Outcome of the inner retry loop around `socket.send` once the `EINTR`
`continue` is resolved. -/
inductive SendOut
| ok (n : Nat)
| tmo
| err (ev : ErrVal)
deriving DecidableEq

/-- Source lines 412-420, the inner `while True` around `socket.send`:
consume syscall outcomes from the trace, retrying on `errno == EINTR`,
until one outcome is returned (or the trace runs out).  Every attempted
syscall is recorded as a `sendCall` action. -/
def send_attempt (frame : List Nat) : List SendRes → Option SendOut × List SendRes × List Act
| [] => (none, [], [])
| SendRes.sent n :: rest => (some (SendOut.ok n), rest, [Act.sendCall frame])
| SendRes.timeout :: rest => (some SendOut.tmo, rest, [Act.sendCall frame])
| SendRes.osErr ev :: rest =>
  if ev.errnoCode = some EINTR then
    let r := send_attempt frame rest
    (r.1, r.2.1, Act.sendCall frame :: r.2.2)
  else (some (SendOut.err ev), rest, [Act.sendCall frame])

/-- Source lines 405-441, `_handle_write`, outer `while self.outbound_buffer`
loop: pop the front frame, send it; on a partial send requeue the unsent
suffix at the front and stop; on `socket.timeout` requeue the whole frame
and run the no-op timeout handler; on `EAGAIN`/`EWOULDBLOCK` requeue the
whole frame and stop; on any other `OSError` dispatch to `_handle_error`.
The recursion is on the popped-off remainder of the buffer: the loop only
continues after a complete send.  An exhausted syscall trace stops the loop
with the current frame still at the front (no further syscall happens). -/
def handle_write_go (shutdown_err : Bool) (s : TState) :
    List (List Nat) → List SendRes → Nat → List Act → Step × Nat
| [], _, acc, acts =>
  ({ st := { s with outbound_buffer := [] }, acts := acts, exn := none }, acc)
| frame :: rest, tr, acc, acts =>
  match send_attempt frame tr with
  | (none, _, attempts) =>
    ({ st := { s with outbound_buffer := frame :: rest },
       acts := acts ++ attempts, exn := none }, acc)
  | (some (SendOut.ok n), tr1, attempts) =>
    if n < frame.length then
      ({ st := { s with outbound_buffer := frame.drop n :: rest },
         acts := acts ++ attempts, exn := none }, acc + n)
    else
      handle_write_go shutdown_err s rest tr1 (acc + n) (acts ++ attempts)
  | (some SendOut.tmo, _, attempts) =>
    ({ st := { s with outbound_buffer := frame :: rest },
       acts := acts ++ attempts ++ [Act.handleTimeout], exn := none }, acc)
  | (some (SendOut.err ev), _, attempts) =>
    if ev.errnoCode = some EAGAIN || ev.errnoCode = some EWOULDBLOCK then
      ({ st := { s with outbound_buffer := frame :: rest },
         acts := acts ++ attempts, exn := none }, acc)
    else
      let r := handle_error shutdown_err ev { s with outbound_buffer := rest }
      ({ r with acts := acts ++ attempts ++ r.acts }, acc)

/-- Source lines 405-441, `_handle_write`: run the write loop on the current
outbound buffer, returning the step and `bytes_written`. -/
def handle_write (shutdown_err : Bool) (tr : List SendRes) (s : TState) : Step × Nat :=
  handle_write_go shutdown_err s s.outbound_buffer tr 0 []

/-- Outcome of one `socket.recv`/`socket.read` syscall: data (possibly
empty), a `socket.timeout`, an `ssl.SSLError`, or an `OSError`. -/
inductive RecvRes
| data (d : List Nat)
| timeout
| sslErr (ev : ErrVal)
| osErr (ev : ErrVal)
deriving DecidableEq

/-- Source lines 363-403, `_handle_read`: retry the recv on `EINTR`; on
`socket.timeout` run the timeout handler and return 0; on `SSLError` with
`args[0] == SSL_ERROR_WANT_READ` return 0, otherwise dispatch to
`_handle_error`; on `OSError` with `EAGAIN`/`EWOULDBLOCK` return 0,
otherwise dispatch to `_handle_error`; on empty data run
`_handle_disconnect`; on data deliver it to the protocol layer
(`_on_data_available`, Modelled from the spec: the `deliver(bytes)`
callback — `pika/connection.py` is not under `src/`) and return its
length.  An exhausted syscall trace is a no-op. -/
def handle_read (shutdown_err : Bool) : List RecvRes → TState → Step × Nat
| [], s => ({ st := s, acts := [], exn := none }, 0)
| RecvRes.data d :: _, s =>
  if d = [] then (handle_disconnect shutdown_err s, 0)
  else ({ st := s, acts := [Act.deliver d], exn := none }, d.length)
| RecvRes.timeout :: _, s =>
  ({ st := s, acts := [Act.handleTimeout], exn := none }, 0)
| RecvRes.sslErr ev :: _, s =>
  if ev.sslArg = SSL_ERROR_WANT_READ then ({ st := s, acts := [], exn := none }, 0)
  else (handle_error shutdown_err ev s, 0)
| RecvRes.osErr ev :: rest, s =>
  if ev.errnoCode = some EINTR then handle_read shutdown_err rest s
  else if ev.errnoCode = some EAGAIN || ev.errnoCode = some EWOULDBLOCK then
    ({ st := s, acts := [], exn := none }, 0)
  else (handle_error shutdown_err ev s, 0)

/-- Source lines 455-468, `_manage_event_state`: when the outbound buffer is
non-empty and `WRITE` is not yet in the mask, add it and push the new mask
to the ioloop; when the buffer is empty and `WRITE` is in the mask, reset
the mask to `base_events` and push it; otherwise do nothing. -/
def manage_event_state (s : TState) : TState × List Act :=
  if s.outbound_buffer ≠ [] then
    if s.event_state &&& WRITE = 0 then
      ({ s with event_state := s.event_state ||| WRITE },
       [Act.updateHandler (s.event_state ||| WRITE)])
    else (s, [])
  else if s.event_state &&& WRITE ≠ 0 then
    ({ s with event_state := base_events }, [Act.updateHandler base_events])
  else (s, [])

/-- Outcome of one `socket.do_handshake` attempt: success, or an
`ssl.SSLError` carrying `args[0]`. -/
inductive HsRes
| ok
| sslErr (arg : Nat)
deriving DecidableEq

/-- Source lines 230-247, `_do_ssl_handshake`: repeat `do_handshake` until it
succeeds; on `SSL_ERROR_WANT_READ` set the event mask to `READ`, on
`SSL_ERROR_WANT_WRITE` set it to `WRITE`, any other `SSLError` is
re-raised; after each want-signal run `_manage_event_state` and retry. -/
def do_ssl_handshake : List HsRes → TState → Step
| [], s => { st := s, acts := [], exn := none }
| HsRes.ok :: _, s => { st := s, acts := [], exn := none }
| HsRes.sslErr arg :: rest, s =>
  if arg = SSL_ERROR_WANT_READ then
    let m := manage_event_state { s with event_state := READ }
    let r := do_ssl_handshake rest m.1
    { r with acts := m.2 ++ r.acts }
  else if arg = SSL_ERROR_WANT_WRITE then
    let m := manage_event_state { s with event_state := WRITE }
    let r := do_ssl_handshake rest m.1
    { r with acts := m.2 ++ r.acts }
  else { st := s, acts := [], exn := some Exn.sslHandshakeError }

/-- The `error=None` default of `_handle_events`: a falsy error value. -/
def noErrVal : ErrVal :=
  { present := false, strTimedOut := false, errnoCode := none,
    isSSLError := false, sslArg := 0 }

/-- Python statement sequencing with exception propagation: if the first
statement raised, the next one does not run; otherwise run it on the
resulting state and accumulate the recorded actions. -/
def seq_step (r : Step) (f : TState → Step) : Step :=
  match r.exn with
  | some _ => r
  | none =>
    let r2 := f r.st
    { r2 with acts := r.acts ++ r2.acts }

/-- Source lines 333-361, `_handle_events`: ignore events on a closed
socket; on `WRITE` flush the outbound buffer and recompute the mask; on
`READ` (unless `write_only`) read; on `write_only` with both `READ` and
`ERROR` set, assume a severed socket and disconnect; on `ERROR` dispatch
the error value to `_handle_error`.  Each block re-checks that the socket
is still present, and an exception raised in one block propagates out
before the later blocks run (the `seq_step` chaining). -/
def handle_events (shutdown_err : Bool) (events : Nat) (error : Option ErrVal)
    (write_only : Bool) (sendTr : List SendRes) (recvTr : List RecvRes)
    (s : TState) : Step :=
  if !s.socket then { st := s, acts := [], exn := none }
  else
    seq_step (seq_step (seq_step
      (if s.socket && (events &&& WRITE != 0) then
        seq_step (handle_write shutdown_err sendTr s).1 (fun t =>
          { st := (manage_event_state t).1, acts := (manage_event_state t).2,
            exn := none })
       else { st := s, acts := [], exn := none })
      (fun t1 =>
        if t1.socket && !write_only && (events &&& READ != 0) then
          (handle_read shutdown_err recvTr t1).1
        else { st := t1, acts := [], exn := none }))
      (fun t2 =>
        if t2.socket && write_only && (events &&& READ != 0) &&
            (events &&& ERROR != 0) then
          handle_disconnect shutdown_err t2
        else { st := t2, acts := [], exn := none }))
      (fun t3 =>
        if t3.socket && (events &&& ERROR != 0) then
          handle_error shutdown_err (error.getD noErrVal) t3
        else { st := t3, acts := [], exn := none })

/-- An address candidate produced by `socket.getaddrinfo`, identified by an
opaque tag (the `(family, ..., sockaddr)` tuple is only threaded through). -/
abbrev Cand := Nat

/-- Outcome of attempting one candidate in
`_create_and_connect_to_socket`: the `connect` succeeds, times out, fails
with an `OSError`, or the subsequent SSL handshake fails. -/
inductive ConnectOutcome
| success
| timeout
| osFail (code : Nat)
| sslFail (arg : Nat)
deriving DecidableEq

/-- The error value `_adapter_connect` returns: the initial
`"No socket addresses available"` string, or the error string built by
`_create_and_connect_to_socket` from the failing candidate's address and
the failure (timeout / `OSError` / `ssl.SSLError`). -/
inductive DialError
| noAddresses
| connectTimeout (c : Cand)
| connectFail (c : Cand) (code : Nat)
| sslError (c : Cand) (arg : Nat)
deriving DecidableEq

/-- Observable actions of the dial phase, in execution order. -/
inductive DialAct
| createSocket (c : Cand)
| connectTry (c : Cand)
| closePartialSocket (c : Cand)
| setNonblocking
deriving DecidableEq

/-- Source lines 182-228, `_create_and_connect_to_socket`: create a socket
for the candidate, set options, optionally wrap with SSL, `connect`; on
timeout or `OSError` return the formatted error; on SSL handshake failure
return the formatted error; otherwise return `None`. -/
def create_and_connect_to_socket (oc : Cand → ConnectOutcome) (c : Cand) :
    Option DialError × List DialAct :=
  match oc c with
  | ConnectOutcome.success => (none, [DialAct.createSocket c, DialAct.connectTry c])
  | ConnectOutcome.timeout =>
    (some (DialError.connectTimeout c), [DialAct.createSocket c, DialAct.connectTry c])
  | ConnectOutcome.osFail code =>
    (some (DialError.connectFail c code), [DialAct.createSocket c, DialAct.connectTry c])
  | ConnectOutcome.sslFail arg =>
    (some (DialError.sslError c arg), [DialAct.createSocket c, DialAct.connectTry c])

/-- Source lines 125-134, the candidate loop of `_adapter_connect`: try each
resolved address in order; on success make the socket non-blocking and
return `None` without trying further candidates; on failure clean up the
partial socket and overwrite `error` with this candidate's error; when the
loop ends, return the last error (initially the no-addresses message).
Returns the error, the action trace and the finally-connected candidate. -/
def adapter_connect_go (oc : Cand → ConnectOutcome) :
    List Cand → DialError → Option DialError × List DialAct × Option Cand
| [], err => (some err, [], none)
| c :: rest, _ =>
  match create_and_connect_to_socket oc c with
  | (none, acts) => (none, acts ++ [DialAct.setNonblocking], some c)
  | (some e, acts) =>
    let r := adapter_connect_go oc rest e
    (r.1, acts ++ [DialAct.closePartialSocket c] ++ r.2.1, r.2.2)

/-- Source lines 102-134, `_adapter_connect`, after resolution produced the
ordered candidate list: run the candidate loop starting from the
`"No socket addresses available"` error. -/
def adapter_connect (oc : Cand → ConnectOutcome) (cands : List Cand) :
    Option DialError × List DialAct × Option Cand :=
  adapter_connect_go oc cands DialError.noAddresses

/-! ### Sample values used by concrete witnesses and counterexamples -/

/-- An open connection: socket present, base event mask, empty outbound
buffer, open phase, SSL off, ioloop present and stopped on close. -/
def sOpen : TState :=
  { socket := true, event_state := base_events, outbound_buffer := [],
    connection_state := Phase.opened, sslEnabled := false,
    stop_ioloop_on_close := true, hasIoloop := true }

/-- An `ssl.SSLError` carrying `SSL_ERROR_WANT_READ` (its `errno` is
`args[0] = 2` and its string does not contain `'timed out'`). -/
def evWantRead : ErrVal :=
  { present := true, strTimedOut := false, errnoCode := some SSL_ERROR_WANT_READ,
    isSSLError := true, sslArg := SSL_ERROR_WANT_READ }

/-- An `OSError` with `errno == EBADF`. -/
def evBadf : ErrVal :=
  { present := true, strTimedOut := false, errnoCode := some EBADF,
    isSSLError := false, sslArg := 0 }

/-- An `OSError` with `errno == EAGAIN`. -/
def evAgain : ErrVal :=
  { present := true, strTimedOut := false, errnoCode := some EAGAIN,
    isSSLError := false, sslArg := 0 }

/-- An error value whose string contains `'timed out'` (e.g. a
`socket.timeout`-flavoured `OSError` with `errno == ETIMEDOUT`). -/
def evTimedOut : ErrVal :=
  { present := true, strTimedOut := true, errnoCode := some 110,
    isSSLError := false, sslArg := 0 }

/-- A candidate-outcome table: candidate 1 connects, every other candidate
fails with `ECONNREFUSED` (111). -/
def ocW : Cand → ConnectOutcome :=
  fun c => if c = 1 then ConnectOutcome.success else ConnectOutcome.osFail 111

/-- The phase-specific disconnect signals of the spec. -/
def PhaseExn (e : Exn) : Prop :=
  e = Exn.incompatibleProtocolError ∨ e = Exn.probableAuthenticationError ∨
    e = Exn.probableAccessDeniedError

/-- A step's escaping exception, when any, is either the `socket.timeout`
re-raise or a phase-specific disconnect signal produced by the state check
that is part of the step's recorded disconnect sequence. -/
def ExnOK (r : Step) : Prop :=
  ∀ e, r.exn = some e →
    e = Exn.socketTimeout ∨ (PhaseExn e ∧ Act.checkState ∈ r.acts)

/-! ### Helper lemmas -/

/-- Closed form of `adapter_disconnect`: the action sequence, the fully
reset final state and the exception from the phase check. -/
theorem adapter_disconnect_eq (sd : Bool) (s : TState) :
    adapter_disconnect sd s =
      { st :=
          { s with
            socket := false
            outbound_buffer := []
            event_state := base_events
            connection_state := Phase.closed }
        acts := [Act.removeHeartbeat]
                ++ (if s.socket then [Act.shutdownSocket, Act.closeSocket] else [])
                ++ [Act.checkState]
                ++ (if s.stop_ioloop_on_close && s.hasIoloop then [Act.ioloopStop] else [])
                ++ [Act.initState]
        exn := (check_state_on_disconnect s.connection_state).1 } := by
  cases hs : s.socket <;>
    simp [adapter_disconnect, cleanup_socket, handle_ioloop_stop,
      init_connection_state, hs]

/-- Closed form of `handle_disconnect`: the disconnect sequence followed by
the `connectionClosed` callback exactly when the phase check did not raise. -/
theorem handle_disconnect_eq (sd : Bool) (s : TState) :
    handle_disconnect sd s =
      { st :=
          { s with
            socket := false
            outbound_buffer := []
            event_state := base_events
            connection_state := Phase.closed }
        acts := [Act.removeHeartbeat]
                ++ (if s.socket then [Act.shutdownSocket, Act.closeSocket] else [])
                ++ [Act.checkState]
                ++ (if s.stop_ioloop_on_close && s.hasIoloop then [Act.ioloopStop] else [])
                ++ [Act.initState]
                ++ (if (check_state_on_disconnect s.connection_state).1 = none
                    then [Act.connectionClosed] else [])
        exn := (check_state_on_disconnect s.connection_state).1 } := by
  cases h : (check_state_on_disconnect s.connection_state).1 <;>
    simp [handle_disconnect, adapter_disconnect_eq, h]


/-! ### Claim theorems -/

/-- Claim C9: every execution of the disconnect sequence runs, in order,
the heartbeat-timer cancellation, the socket shutdown+close (shutdown
errors swallowed: the result is the same for either value of
`shutdown_err`), and the phase-state check; then — whether or not the
check raised — it stops the ioloop when so configured and resets the
internal connection state (socket absent, outbound buffer empty, event
mask back to base, closed phase), leaving the instance reusable. -/
theorem adapter_disconnect_sequence_and_reset (sd : Bool) (s : TState) :
    (adapter_disconnect sd s).acts =
      [Act.removeHeartbeat]
        ++ (if s.socket then [Act.shutdownSocket, Act.closeSocket] else [])
        ++ [Act.checkState]
        ++ (if s.stop_ioloop_on_close && s.hasIoloop then [Act.ioloopStop] else [])
        ++ [Act.initState] ∧
    (adapter_disconnect sd s).st = init_connection_state s ∧
    (adapter_disconnect sd s).st.socket = false ∧
    (adapter_disconnect sd s).st.outbound_buffer = [] ∧
    (adapter_disconnect sd s).st.event_state = base_events ∧
    (adapter_disconnect sd s).st.connection_state = Phase.closed ∧
    (adapter_disconnect sd s).exn = (check_state_on_disconnect s.connection_state).1 := by
  simp [adapter_disconnect_eq, init_connection_state]

/-- Claim C2: at disconnect time, the protocol-handshake phase raises
`IncompatibleProtocolError`, the authenticating (START) phase raises
`ProbableAuthenticationError`, the tuning phase raises
`ProbableAccessDeniedError`, the open phase surfaces no error (warning log
only), and any remaining phase that is neither closed nor closing only
logs the unknown-state warning. -/
theorem check_state_on_disconnect_phase_mapping :
    check_state_on_disconnect Phase.protocolHandshake
      = (some Exn.incompatibleProtocolError, CheckLog.silent) ∧
    check_state_on_disconnect Phase.authenticating
      = (some Exn.probableAuthenticationError, CheckLog.silent) ∧
    check_state_on_disconnect Phase.tuning
      = (some Exn.probableAccessDeniedError, CheckLog.silent) ∧
    check_state_on_disconnect Phase.opened = (none, CheckLog.openWarn) ∧
    (∀ p : Phase, p ≠ Phase.protocolHandshake → p ≠ Phase.authenticating →
      p ≠ Phase.tuning → p ≠ Phase.opened → p ≠ Phase.closed → p ≠ Phase.closing →
      check_state_on_disconnect p = (none, CheckLog.unknownWarn)) ∧
    check_state_on_disconnect Phase.closed = (none, CheckLog.silent) ∧
    check_state_on_disconnect Phase.closing = (none, CheckLog.silent) := by
  refine ⟨by decide, by decide, by decide, by decide, ?_, by decide, by decide⟩
  intro p h1 h2 h3 h4 h5 h6
  cases p
  case protocolHandshake => exact absurd rfl h1
  case authenticating => exact absurd rfl h2
  case tuning => exact absurd rfl h3
  case opened => exact absurd rfl h4
  case closed => exact absurd rfl h5
  case closing => exact absurd rfl h6
  case resolving => decide
  case connecting => decide

/-- Witness for C2: the resolving phase is neither one of the three raising
phases nor open, closed or closing, and yields the unknown-state warning. -/
theorem check_state_on_disconnect_phase_mapping_witness :
    check_state_on_disconnect Phase.resolving = (none, CheckLog.unknownWarn) :=
  check_state_on_disconnect_phase_mapping.2.2.2.2.1 Phase.resolving
    (by decide) (by decide) (by decide) (by decide) (by decide) (by decide)

/-- Claim C1: with outbound queue `[A, B, C]`, a send that transmits only
the first `k` bytes of `A` (`k < len A`) leaves the queue as
`[A[k:], B, C]` after one `_handle_write` call: the unsent suffix is
requeued at the front, only `A` was attempted, no error escapes, and the
call reports `k` bytes written. -/
theorem handle_write_partial_send_requeues_front (sd : Bool) (s : TState)
    (A B C : List Nat) (k : Nat) (hbuf : s.outbound_buffer = [A, B, C])
    (hk : k < A.length) :
    (handle_write sd [SendRes.sent k] s).1.st
        = { s with outbound_buffer := A.drop k :: [B, C] } ∧
    (handle_write sd [SendRes.sent k] s).1.acts = [Act.sendCall A] ∧
    (handle_write sd [SendRes.sent k] s).1.exn = none ∧
    (handle_write sd [SendRes.sent k] s).2 = k := by
  simp [handle_write, hbuf, handle_write_go, send_attempt, hk]

/-- Witness for C1 at the queue `[[1,2,3],[4],[5,6]]` with a send that
transmits 1 of the 3 bytes of the first frame. -/
theorem handle_write_partial_send_requeues_front_witness :
    (handle_write false [SendRes.sent 1]
        { sOpen with outbound_buffer := [[1,2,3],[4],[5,6]] }).1.st
      = { sOpen with outbound_buffer := [[2,3],[4],[5,6]] } ∧
    (handle_write false [SendRes.sent 1]
        { sOpen with outbound_buffer := [[1,2,3],[4],[5,6]] }).1.acts
      = [Act.sendCall [1,2,3]] ∧
    (handle_write false [SendRes.sent 1]
        { sOpen with outbound_buffer := [[1,2,3],[4],[5,6]] }).1.exn = none ∧
    (handle_write false [SendRes.sent 1]
        { sOpen with outbound_buffer := [[1,2,3],[4],[5,6]] }).2 = 1 :=
  handle_write_partial_send_requeues_front false
    { sOpen with outbound_buffer := [[1,2,3],[4],[5,6]] }
    [1,2,3] [4] [5,6] 1 rfl (by decide)

/-- Claim C3 is a code bug: on an `ssl.SSLError` carrying
`SSL_ERROR_WANT_READ` with TLS enabled, `_handle_error` assigns
`event_state` but then falls through to `self._handle_disconnect()`
(source line 325), so — contrary to the claim and spec section 4.4 —
the socket is closed, the full disconnect sequence runs and
`connectionClosed` fires; the mask assignment is even overwritten by the
state reset. -/
theorem ssl_want_read_error_still_disconnects :
    (handle_error false evWantRead { sOpen with sslEnabled := true }).st.socket = false ∧
    (handle_error false evWantRead { sOpen with sslEnabled := true }).acts.count
      Act.checkState = 1 ∧
    (handle_error false evWantRead { sOpen with sslEnabled := true }).acts.count
      Act.connectionClosed = 1 ∧
    (handle_error false evWantRead { sOpen with sslEnabled := true }).st.event_state
      = base_events := by decide

/-- Counterexample to C4 as stated: during the SSL handshake loop a
want-read signal sets the whole mask to `READ`, dropping the `ERROR`
(and `READ|ERROR` base) bits while the socket is open. -/
theorem do_ssl_handshake_drops_error_bit :
    (do_ssl_handshake [HsRes.sslErr SSL_ERROR_WANT_READ, HsRes.ok] sOpen).st.socket
      = true ∧
    (do_ssl_handshake [HsRes.sslErr SSL_ERROR_WANT_READ, HsRes.ok]
        sOpen).st.event_state &&& ERROR = 0 ∧
    (do_ssl_handshake [HsRes.sslErr SSL_ERROR_WANT_READ, HsRes.ok] sOpen).exn
      = none := by decide

/-- Claim C4, amended: `_manage_event_state` itself maintains the event-mask
invariant — starting from `READ|ERROR` with or without `WRITE`, the
recomputed mask keeps `READ` and `ERROR`, contains `WRITE` iff the
outbound queue is non-empty, and `update_handler` is pushed to the ioloop
exactly when the mask changed; the invariant does not, however, survive
`_do_ssl_handshake` or the SSL want-read/want-write branches of
`_handle_error`, which overwrite the mask with `READ` or `WRITE` alone. -/
theorem manage_event_state_mask_invariant (s : TState)
    (h : s.event_state = base_events ∨ s.event_state = base_events ||| WRITE) :
    ((manage_event_state s).1.event_state &&& READ ≠ 0) ∧
    ((manage_event_state s).1.event_state &&& ERROR ≠ 0) ∧
    (((manage_event_state s).1.event_state &&& WRITE ≠ 0) ↔ s.outbound_buffer ≠ []) ∧
    ((manage_event_state s).2 =
      if (manage_event_state s).1.event_state = s.event_state then []
      else [Act.updateHandler (manage_event_state s).1.event_state]) ∧
    (manage_event_state s).1.outbound_buffer = s.outbound_buffer := by
  have b1 : base_events &&& WRITE = 0 := by decide
  have b2 : (base_events ||| WRITE) &&& WRITE ≠ 0 := by decide
  have b3 : base_events &&& READ ≠ 0 := by decide
  have b4 : base_events &&& ERROR ≠ 0 := by decide
  have b5 : (base_events ||| WRITE) &&& READ ≠ 0 := by decide
  have b6 : (base_events ||| WRITE) &&& ERROR ≠ 0 := by decide
  have b7 : ¬(base_events ||| WRITE = base_events) := by decide
  have b8 : ¬(base_events = base_events ||| WRITE) := by decide
  rcases h with h | h <;> by_cases hb : s.outbound_buffer = []
  · have hm : manage_event_state s = (s, []) := by
      simp [manage_event_state, hb, h, b1]
    simp [hm, h, hb, b1, b3, b4]
  · have hm : manage_event_state s
        = ({ s with event_state := base_events ||| WRITE },
           [Act.updateHandler (base_events ||| WRITE)]) := by
      simp [manage_event_state, hb, h, b1]
    simp [hm, h, hb, b2, b5, b6, b7]
  · have hm : manage_event_state s
        = ({ s with event_state := base_events }, [Act.updateHandler base_events]) := by
      simp [manage_event_state, hb, h, b2]
    simp [hm, h, hb, b1, b3, b4, b8]
  · have hm : manage_event_state s = (s, []) := by
      simp [manage_event_state, hb, h, b2]
    simp [hm, h, hb, b2, b5, b6]

/-- Witness for the amended C4 at an open state with one queued frame:
the mask gains `WRITE` and one ioloop update is pushed. -/
theorem manage_event_state_mask_invariant_witness :
    ((manage_event_state { sOpen with outbound_buffer := [[7]] }).1.event_state
      &&& READ ≠ 0) ∧
    ((manage_event_state { sOpen with outbound_buffer := [[7]] }).1.event_state
      &&& ERROR ≠ 0) ∧
    (((manage_event_state { sOpen with outbound_buffer := [[7]] }).1.event_state
      &&& WRITE ≠ 0) ↔
      ({ sOpen with outbound_buffer := [[7]] } : TState).outbound_buffer ≠ []) ∧
    ((manage_event_state { sOpen with outbound_buffer := [[7]] }).2 =
      if (manage_event_state { sOpen with outbound_buffer := [[7]] }).1.event_state
          = ({ sOpen with outbound_buffer := [[7]] } : TState).event_state then []
      else [Act.updateHandler
        (manage_event_state { sOpen with outbound_buffer := [[7]] }).1.event_state]) ∧
    (manage_event_state { sOpen with outbound_buffer := [[7]] }).1.outbound_buffer
      = ({ sOpen with outbound_buffer := [[7]] } : TState).outbound_buffer :=
  manage_event_state_mask_invariant { sOpen with outbound_buffer := [[7]] } (Or.inl rfl)


/-- With only the `ERROR` bit set, `_handle_events` on an open socket goes
straight to `_handle_error`. -/
theorem handle_events_error_only (sd : Bool) (er : Option ErrVal) (wo : Bool)
    (sendTr : List SendRes) (recvTr : List RecvRes) (s : TState)
    (hs : s.socket = true) :
    handle_events sd ERROR er wo sendTr recvTr s
      = handle_error sd (er.getD noErrVal) s := by
  have w0 : ((ERROR &&& WRITE != 0) : Bool) = false := by decide
  have r0 : ((ERROR &&& READ != 0) : Bool) = false := by decide
  have e1 : ((ERROR &&& ERROR != 0) : Bool) = true := by decide
  have e2 : ¬ (ERROR = 0) := by decide
  simp [handle_events, hs, w0, r0, e1, e2, seq_step]

/-- An error value with an errno in the abort set reaches the abort branch
of `_handle_error` and runs `_handle_disconnect` unchanged. -/
theorem handle_error_abort (sd : Bool) (code : Nat) (hc : code ∈ ERRORS_TO_ABORT)
    (s : TState) :
    handle_error sd
      { present := true, strTimedOut := false, errnoCode := some code,
        isSSLError := false, sslArg := 0 } s = handle_disconnect sd s := by
  simp only [ERRORS_TO_ABORT, EBADF, ECONNABORTED, EPIPE, List.mem_cons,
    List.not_mem_nil, or_false] at hc
  rcases hc with h | h | h <;> subst h <;>
    simp [handle_error, get_error_code, ERRORS_TO_IGNORE, ERRORS_TO_ABORT,
      EWOULDBLOCK, EAGAIN, EINTR, EBADF, ECONNABORTED, EPIPE]

/-- Claim C5, amended: handling an `ERROR` event whose errno is in the abort
set runs exactly one disconnect sequence and leaves the socket absent, but
`connectionClosed` fires exactly once only when the phase at that moment is
not one of the three raising phases (protocol handshake, authenticating,
tuning); in a raising phase the phase-specific exception propagates from
`_adapter_disconnect` before `_on_connection_closed` is reached, so the
callback does not fire. -/
theorem abort_error_triggers_one_disconnect (code : Nat)
    (hc : code ∈ ERRORS_TO_ABORT) (sd : Bool) (s : TState) (hs : s.socket = true) :
    (handle_events sd ERROR
        (some { present := true, strTimedOut := false, errnoCode := some code,
                isSSLError := false, sslArg := 0 }) false [] [] s).st.socket = false ∧
    (handle_events sd ERROR
        (some { present := true, strTimedOut := false, errnoCode := some code,
                isSSLError := false, sslArg := 0 }) false [] [] s).acts.count
      Act.checkState = 1 ∧
    ((handle_events sd ERROR
        (some { present := true, strTimedOut := false, errnoCode := some code,
                isSSLError := false, sslArg := 0 }) false [] [] s).acts.count
      Act.connectionClosed = 1 ↔
      (s.connection_state ≠ Phase.protocolHandshake ∧
       s.connection_state ≠ Phase.authenticating ∧
       s.connection_state ≠ Phase.tuning)) ∧
    (handle_events sd ERROR
        (some { present := true, strTimedOut := false, errnoCode := some code,
                isSSLError := false, sslArg := 0 }) false [] [] s).exn
      = (check_state_on_disconnect s.connection_state).1 := by
  rw [handle_events_error_only sd _ false [] [] s hs]
  simp only [Option.getD]
  rw [handle_error_abort sd code hc s]
  rw [handle_disconnect_eq]
  cases hp : s.connection_state <;>
    cases hio : s.stop_ioloop_on_close && s.hasIoloop <;>
      simp [check_state_on_disconnect, Phase.is_open, Phase.is_closed,
        Phase.is_closing, hs, hio]

/-- Witness for the amended C5: an `EBADF` error on an open connection in
the open phase closes the socket, runs one disconnect sequence and fires
`connectionClosed` once. -/
theorem abort_error_triggers_one_disconnect_witness :
    (handle_events false ERROR (some evBadf) false [] [] sOpen).st.socket = false ∧
    (handle_events false ERROR (some evBadf) false [] [] sOpen).acts.count
      Act.checkState = 1 ∧
    ((handle_events false ERROR (some evBadf) false [] [] sOpen).acts.count
      Act.connectionClosed = 1 ↔
      (sOpen.connection_state ≠ Phase.protocolHandshake ∧
       sOpen.connection_state ≠ Phase.authenticating ∧
       sOpen.connection_state ≠ Phase.tuning)) ∧
    (handle_events false ERROR (some evBadf) false [] [] sOpen).exn
      = (check_state_on_disconnect sOpen.connection_state).1 :=
  abort_error_triggers_one_disconnect EBADF (by decide) false sOpen rfl

/-- Counterexample to C5 as stated: the same `EBADF` error handled while the
phase is authenticating still closes the socket, but `connectionClosed`
fires zero times — the `ProbableAuthenticationError` propagates instead. -/
theorem abort_error_in_auth_phase_skips_connection_closed :
    (handle_events false ERROR (some evBadf) false [] []
        { sOpen with connection_state := Phase.authenticating }).st.socket = false ∧
    (handle_events false ERROR (some evBadf) false [] []
        { sOpen with connection_state := Phase.authenticating }).acts.count
      Act.connectionClosed = 0 ∧
    (handle_events false ERROR (some evBadf) false [] []
        { sOpen with connection_state := Phase.authenticating }).exn
      = some Exn.probableAuthenticationError := by decide

/-- Claim C6: handling an `ERROR` event whose errno is in the ignore set
(`EWOULDBLOCK`/`EAGAIN`, `EINTR`) is a complete no-op: the state — socket
open, phase, queue, mask — is unchanged, no external action happens and no
exception escapes. -/
theorem ignore_error_is_noop (code : Nat) (hc : code ∈ ERRORS_TO_IGNORE)
    (sd wo : Bool) (sendTr : List SendRes) (recvTr : List RecvRes) (s : TState)
    (hs : s.socket = true) :
    handle_events sd ERROR
      (some { present := true, strTimedOut := false, errnoCode := some code,
              isSSLError := false, sslArg := 0 }) wo sendTr recvTr s
      = { st := s, acts := [], exn := none } := by
  rw [handle_events_error_only sd _ wo sendTr recvTr s hs]
  simp only [Option.getD]
  simp only [ERRORS_TO_IGNORE, EWOULDBLOCK, EAGAIN, EINTR, List.mem_cons,
    List.not_mem_nil, or_false] at hc
  rcases hc with h | h | h <;> subst h <;>
    simp [handle_error, get_error_code, ERRORS_TO_IGNORE, EWOULDBLOCK, EAGAIN, EINTR]

/-- Witness for C6: an `EAGAIN` error event on the open sample state leaves
it untouched. -/
theorem ignore_error_is_noop_witness :
    handle_events false ERROR (some evAgain) false [] [] sOpen
      = { st := sOpen, acts := [], exn := none } :=
  ignore_error_is_noop EAGAIN (by decide) false false [] [] sOpen rfl

/-- Claim C7: a read that returns zero bytes triggers the disconnect
sequence even when the outbound queue is non-empty: no send is attempted,
and the pending frames are discarded by the state reset. -/
theorem zero_length_read_disconnects (sd : Bool) (s : TState)
    (hs : s.socket = true) (hb : s.outbound_buffer ≠ []) :
    (handle_read sd [RecvRes.data []] s).1.acts.count Act.checkState = 1 ∧
    (handle_read sd [RecvRes.data []] s).1.st.socket = false ∧
    (handle_read sd [RecvRes.data []] s).1.st.outbound_buffer = [] ∧
    (∀ f, ¬ Act.sendCall f ∈ (handle_read sd [RecvRes.data []] s).1.acts) ∧
    (handle_read sd [RecvRes.data []] s).2 = 0 := by
  simp only [handle_read, if_pos rfl]
  rw [handle_disconnect_eq]
  cases hc : (check_state_on_disconnect s.connection_state).1 <;>
    cases hio : s.stop_ioloop_on_close && s.hasIoloop <;>
      simp [hs, hio, hc]

/-- Witness for C7 at an open state with two queued frames. -/
theorem zero_length_read_disconnects_witness :
    (handle_read false [RecvRes.data []]
        { sOpen with outbound_buffer := [[1],[2]] }).1.acts.count Act.checkState = 1 ∧
    (handle_read false [RecvRes.data []]
        { sOpen with outbound_buffer := [[1],[2]] }).1.st.socket = false ∧
    (handle_read false [RecvRes.data []]
        { sOpen with outbound_buffer := [[1],[2]] }).1.st.outbound_buffer = [] ∧
    (∀ f, ¬ Act.sendCall f ∈ (handle_read false [RecvRes.data []]
        { sOpen with outbound_buffer := [[1],[2]] }).1.acts) ∧
    (handle_read false [RecvRes.data []]
        { sOpen with outbound_buffer := [[1],[2]] }).2 = 0 :=
  zero_length_read_disconnects false { sOpen with outbound_buffer := [[1],[2]] }
    rfl (by decide)


/-- The socket-creation and connect attempt actions of one candidate do not
depend on its outcome. -/
theorem create_and_connect_acts (oc : Cand → ConnectOutcome) (c : Cand) :
    (create_and_connect_to_socket oc c).2
      = [DialAct.createSocket c, DialAct.connectTry c] := by
  cases h : oc c <;> simp [create_and_connect_to_socket, h]

/-- A failing candidate produces some dial error. -/
theorem create_and_connect_fail (oc : Cand → ConnectOutcome) (c : Cand)
    (h : oc c ≠ ConnectOutcome.success) :
    ∃ e, (create_and_connect_to_socket oc c).1 = some e := by
  cases hx : oc c
  case success => exact absurd hx h
  all_goals simp [create_and_connect_to_socket, hx]

/-- When every candidate fails, the candidate loop returns the error of the
last candidate and no connected socket, for any initial error value. -/
theorem adapter_connect_go_all_fail (oc : Cand → ConnectOutcome)
    (cands : List Cand) :
    ∀ (e0 : DialError) (c : Cand),
      (∀ d ∈ cands, oc d ≠ ConnectOutcome.success) → cands.getLast? = some c →
      (adapter_connect_go oc cands e0).1 = (create_and_connect_to_socket oc c).1 ∧
      (adapter_connect_go oc cands e0).2.2 = none := by
  induction cands with
  | nil => intro e0 c _ hlast; simp at hlast
  | cons d rest ih =>
    intro e0 c hfail hlast
    have hd : oc d ≠ ConnectOutcome.success := hfail d (by simp)
    obtain ⟨e, he⟩ := create_and_connect_fail oc d hd
    rcases hcr : create_and_connect_to_socket oc d with ⟨copt, cacts⟩
    rw [hcr] at he
    simp at he
    subst he
    cases rest with
    | nil =>
      have hc : d = c := by simpa using hlast
      subst hc
      simp [adapter_connect_go, hcr]
    | cons r rs =>
      have hfr : ∀ x ∈ r :: rs, oc x ≠ ConnectOutcome.success :=
        fun x hx => hfail x (List.mem_cons_of_mem _ hx)
      have hlast2 : (r :: rs).getLast? = some c := by
        simpa [List.getLast?_cons_cons] using hlast
      obtain ⟨h1, h2⟩ := ih e c hfr hlast2
      constructor
      · simpa [adapter_connect_go, hcr] using h1
      · simpa [adapter_connect_go, hcr] using h2

/-- When the candidates split as failing prefix, first success, untouched
suffix, the candidate loop tries the prefix in order, closes each partial
socket, connects the successful candidate, sets it non-blocking and stops. -/
theorem adapter_connect_go_success (oc : Cand → ConnectOutcome)
    (pre : List Cand) :
    ∀ (c : Cand) (post : List Cand) (e0 : DialError),
      (∀ d ∈ pre, oc d ≠ ConnectOutcome.success) → oc c = ConnectOutcome.success →
      adapter_connect_go oc (pre ++ c :: post) e0
        = (none,
           (pre.map (fun d => (create_and_connect_to_socket oc d).2
              ++ [DialAct.closePartialSocket d])).flatten
             ++ (create_and_connect_to_socket oc c).2 ++ [DialAct.setNonblocking],
           some c) := by
  induction pre with
  | nil =>
    intro c post e0 _ hc
    simp [adapter_connect_go, create_and_connect_to_socket, hc]
  | cons d rest ih =>
    intro c post e0 hfail hc
    have hd : oc d ≠ ConnectOutcome.success := hfail d (by simp)
    obtain ⟨e, he⟩ := create_and_connect_fail oc d hd
    rcases hcr : create_and_connect_to_socket oc d with ⟨copt, cacts⟩
    rw [hcr] at he
    simp at he
    subst he
    have hfr : ∀ x ∈ rest, oc x ≠ ConnectOutcome.success :=
      fun x hx => hfail x (List.mem_cons_of_mem _ hx)
    simp [adapter_connect_go, hcr, ih c post e hfr hc, List.append_assoc]

/-- Claim C8: the dial loop tries the resolved candidates left to right;
each failed candidate's partial socket is closed before the next attempt;
when every candidate fails the returned error is the last candidate's (an
empty candidate list returns the no-addresses error); and on the first
success the socket is set non-blocking and the loop returns no error
without touching later candidates. -/
theorem adapter_connect_dial_order (oc : Cand → ConnectOutcome) :
    (adapter_connect oc [] = (some DialError.noAddresses, [], none)) ∧
    (∀ (cands : List Cand) (c : Cand),
      (∀ d ∈ cands, oc d ≠ ConnectOutcome.success) → cands.getLast? = some c →
      (adapter_connect oc cands).1 = (create_and_connect_to_socket oc c).1 ∧
      (adapter_connect oc cands).2.2 = none) ∧
    (∀ (pre : List Cand) (c : Cand) (post : List Cand),
      (∀ d ∈ pre, oc d ≠ ConnectOutcome.success) → oc c = ConnectOutcome.success →
      adapter_connect oc (pre ++ c :: post)
        = (none,
           (pre.map (fun d => (create_and_connect_to_socket oc d).2
              ++ [DialAct.closePartialSocket d])).flatten
             ++ (create_and_connect_to_socket oc c).2 ++ [DialAct.setNonblocking],
           some c)) := by
  refine ⟨rfl, ?_, ?_⟩
  · intro cands c hfail hlast
    exact adapter_connect_go_all_fail oc cands DialError.noAddresses c hfail hlast
  · intro pre c post hfail hc
    exact adapter_connect_go_success oc pre c post DialError.noAddresses hfail hc

/-- Witness for C8 with the sample outcome table: an empty list yields the
no-addresses error; `[0, 2]` (both failing) yields candidate 2's error and
no socket; `[0] ++ 1 :: [3]` connects candidate 1 after closing candidate
0's partial socket, leaving candidate 3 untried. -/
theorem adapter_connect_dial_order_witness :
    (adapter_connect ocW [] = (some DialError.noAddresses, [], none)) ∧
    ((adapter_connect ocW [0, 2]).1 = (create_and_connect_to_socket ocW 2).1 ∧
     (adapter_connect ocW [0, 2]).2.2 = none) ∧
    (adapter_connect ocW ([0] ++ 1 :: [3])
      = (none,
         ([0].map (fun d => (create_and_connect_to_socket ocW d).2
            ++ [DialAct.closePartialSocket d])).flatten
           ++ (create_and_connect_to_socket ocW 1).2 ++ [DialAct.setNonblocking],
         some 1)) := by
  obtain ⟨h1, h2, h3⟩ := adapter_connect_dial_order ocW
  exact ⟨h1, h2 [0, 2] 2 (by decide) (by decide), h3 [0] 1 [3] (by decide) rfl⟩


/-- An exception coming out of the phase check is one of the three
phase-specific signals. -/
theorem check_state_exn_phase (p : Phase) (e : Exn)
    (h : (check_state_on_disconnect p).1 = some e) : PhaseExn e := by
  cases p <;>
    simp only [check_state_on_disconnect, Phase.is_open, Phase.is_closed,
      Phase.is_closing] at h <;>
    simp_all [PhaseExn]

/-- An exception coming out of `_handle_disconnect` is phase specific, and
the recorded actions contain the state check that raised it. -/
theorem handle_disconnect_exn_phase (sd : Bool) (s : TState) (e : Exn)
    (h : (handle_disconnect sd s).exn = some e) :
    PhaseExn e ∧ Act.checkState ∈ (handle_disconnect sd s).acts := by
  rw [handle_disconnect_eq] at h ⊢
  refine ⟨check_state_exn_phase s.connection_state e (by simpa using h), ?_⟩
  simp

/-- `_handle_disconnect` only lets phase-specific signals escape. -/
theorem handle_disconnect_exnok (sd : Bool) (s : TState) :
    ExnOK (handle_disconnect sd s) :=
  fun e h => Or.inr (handle_disconnect_exn_phase sd s e h)

/-- Exception classification for `_handle_error`: a raised exception is the
`socket.timeout` re-raise — possible only when the error value's string
contains `'timed out'` — or a phase-specific signal from the disconnect
sequence the handler ran. -/
theorem handle_error_exn (sd : Bool) (ev : ErrVal) (s : TState) (e : Exn)
    (h : (handle_error sd ev s).exn = some e) :
    (e = Exn.socketTimeout ∧ ev.strTimedOut = true) ∨
    (PhaseExn e ∧ Act.checkState ∈ (handle_error sd ev s).acts) := by
  by_cases ht : ev.strTimedOut = true
  · left
    refine ⟨?_, ht⟩
    simp [handle_error, ht] at h
    simp [h]
  · have ht2 : ev.strTimedOut = false := by
      cases hx : ev.strTimedOut
      · rfl
      · exact absurd hx ht
    right
    cases hg : get_error_code ev with
    | none => simp [handle_error, ht2, hg] at h
    | some code =>
      by_cases h0 : code = 0
      · simp [handle_error, ht2, hg, h0] at h
      · by_cases hig : code ∈ ERRORS_TO_IGNORE
        · simp [handle_error, ht2, hg, h0, hig] at h
        · by_cases hab : code ∈ ERRORS_TO_ABORT
          · have hres : handle_error sd ev s = handle_disconnect sd s := by
              simp [handle_error, ht2, hg, h0, hig, hab]
            rw [hres] at h ⊢
            exact handle_disconnect_exn_phase sd s e h
          · by_cases hssl : (s.sslEnabled && ev.isSSLError) = true
            · by_cases hwr : ev.sslArg = SSL_ERROR_WANT_READ
              · have hres : handle_error sd ev s
                    = handle_disconnect sd { s with event_state := READ } := by
                  simp [handle_error, ht2, hg, h0, hig, hab, hssl, hwr]
                rw [hres] at h ⊢
                exact handle_disconnect_exn_phase sd _ e h
              · by_cases hww : ev.sslArg = SSL_ERROR_WANT_WRITE
                · have hds : ¬ (SSL_ERROR_WANT_WRITE = SSL_ERROR_WANT_READ) := by
                    decide
                  have hres : handle_error sd ev s
                      = handle_disconnect sd { s with event_state := WRITE } := by
                    simp [handle_error, ht2, hg, h0, hig, hab, hssl, hwr, hww, hds]
                  rw [hres] at h ⊢
                  exact handle_disconnect_exn_phase sd _ e h
                · have hres : handle_error sd ev s = handle_disconnect sd s := by
                    simp [handle_error, ht2, hg, h0, hig, hab, hssl, hwr, hww]
                  rw [hres] at h ⊢
                  exact handle_disconnect_exn_phase sd s e h
            · have hssl2 : (s.sslEnabled && ev.isSSLError) = false := by
                cases hx : (s.sslEnabled && ev.isSSLError)
                · rfl
                · exact absurd hx hssl
              have hres : handle_error sd ev s = handle_disconnect sd s := by
                simp [handle_error, ht2, hg, h0, hig, hab, hssl2]
              rw [hres] at h ⊢
              exact handle_disconnect_exn_phase sd s e h

/-- `_handle_error` only lets `socket.timeout` or phase signals escape. -/
theorem handle_error_exnok (sd : Bool) (ev : ErrVal) (s : TState) :
    ExnOK (handle_error sd ev s) := fun e h =>
  match handle_error_exn sd ev s e h with
  | Or.inl ⟨he, _⟩ => Or.inl he
  | Or.inr hp => Or.inr hp

/-- A step that did not raise satisfies the classification vacuously. -/
theorem step_none_exnok (s : TState) (a : List Act) :
    ExnOK { st := s, acts := a, exn := none } := by
  intro e h
  simp at h

/-- Exception classification is preserved by the statement sequencing. -/
theorem seq_step_exnok (r : Step) (f : TState → Step) (hr : ExnOK r)
    (hf : ∀ t, ExnOK (f t)) : ExnOK (seq_step r f) := by
  intro e h
  cases hx : r.exn with
  | some ex =>
    have hres : seq_step r f = r := by simp [seq_step, hx]
    rw [hres] at h ⊢
    exact hr e h
  | none =>
    have hres : seq_step r f
        = { f r.st with acts := r.acts ++ (f r.st).acts } := by
      simp [seq_step, hx]
    rw [hres] at h
    rcases hf r.st e h with h1 | ⟨h2, h3⟩
    · exact Or.inl h1
    · exact Or.inr ⟨h2, by rw [hres]; simp [h3]⟩

/-- `_handle_write` only lets `socket.timeout` or phase signals escape. -/
theorem handle_write_go_exnok (sd : Bool) (s : TState) (buf : List (List Nat)) :
    ∀ (tr : List SendRes) (acc : Nat) (acts : List Act),
      ExnOK (handle_write_go sd s buf tr acc acts).1 := by
  induction buf with
  | nil =>
    intro tr acc acts e h
    simp [handle_write_go] at h
  | cons frame rest ih =>
    intro tr acc acts
    rcases hsa : send_attempt frame tr with ⟨o, tr1, as⟩
    cases o with
    | none =>
      intro e h
      simp [handle_write_go, hsa] at h
    | some so =>
      cases so with
      | ok n =>
        by_cases hn : n < frame.length
        · intro e h
          simp [handle_write_go, hsa, hn] at h
        · intro e h
          simp only [handle_write_go, hsa] at h ⊢
          rw [if_neg hn] at h ⊢
          exact ih tr1 (acc + n) (acts ++ as) e h
      | tmo =>
        intro e h
        simp [handle_write_go, hsa] at h
      | err ev =>
        by_cases hea : ev.errnoCode = some EAGAIN
        · intro e h
          simp [handle_write_go, hsa, hea, EAGAIN, EWOULDBLOCK] at h
        · intro e h
          have hea2 : ¬ (ev.errnoCode = some EWOULDBLOCK) := by
            simpa [EWOULDBLOCK, EAGAIN] using hea
          simp only [handle_write_go, hsa] at h ⊢
          rw [if_neg (by simp [hea, hea2])] at h ⊢
          rcases handle_error_exn sd ev { s with outbound_buffer := rest } e
              (by simpa using h) with ⟨h1, _⟩ | ⟨h2, h3⟩
          · exact Or.inl h1
          · exact Or.inr ⟨h2, by simp [h3]⟩

/-- `_handle_read` only lets `socket.timeout` or phase signals escape. -/
theorem handle_read_exnok (sd : Bool) (tr : List RecvRes) :
    ∀ s : TState, ExnOK (handle_read sd tr s).1 := by
  induction tr with
  | nil =>
    intro s e h
    simp [handle_read] at h
  | cons r rest ih =>
    intro s
    cases r with
    | data d =>
      by_cases hd : d = []
      · subst hd
        intro e h
        simp only [handle_read, if_pos rfl] at h ⊢
        exact handle_disconnect_exnok sd s e h
      · intro e h
        simp [handle_read, hd] at h
    | timeout =>
      intro e h
      simp [handle_read] at h
    | sslErr ev =>
      by_cases hw : ev.sslArg = SSL_ERROR_WANT_READ
      · intro e h
        simp [handle_read, hw] at h
      · intro e h
        simp only [handle_read, if_neg hw] at h ⊢
        exact handle_error_exnok sd ev s e h
    | osErr ev =>
      by_cases h1 : ev.errnoCode = some EINTR
      · intro e h
        simp only [handle_read, if_pos h1] at h ⊢
        exact ih s e h
      · by_cases h2 : ev.errnoCode = some EAGAIN
        · intro e h
          simp [handle_read, h1, h2, EAGAIN, EWOULDBLOCK, EINTR] at h
        · intro e h
          have h3 : ¬ (ev.errnoCode = some EWOULDBLOCK) := by
            simpa [EWOULDBLOCK, EAGAIN] using h2
          simp only [handle_read, if_neg h1] at h ⊢
          rw [if_neg (by simp [h2, h3])] at h ⊢
          exact handle_error_exnok sd ev s e h

/-- `_handle_events` only lets `socket.timeout` or phase signals escape. -/
theorem handle_events_exnok (sd : Bool) (events : Nat) (er : Option ErrVal)
    (wo : Bool) (sendTr : List SendRes) (recvTr : List RecvRes) (s : TState) :
    ExnOK (handle_events sd events er wo sendTr recvTr s) := by
  unfold handle_events
  split
  · exact step_none_exnok s []
  · apply seq_step_exnok
    · apply seq_step_exnok
      · apply seq_step_exnok
        · split
          · apply seq_step_exnok
            · exact handle_write_go_exnok sd s s.outbound_buffer sendTr 0 []
            · intro t
              exact step_none_exnok _ _
          · exact step_none_exnok s []
        · intro t1
          split
          · exact handle_read_exnok sd recvTr t1
          · exact step_none_exnok t1 []
      · intro t2
        split
        · exact handle_disconnect_exnok sd t2
        · exact step_none_exnok t2 []
    · intro t3
      split
      · exact handle_error_exnok sd (er.getD noErrVal) t3
      · exact step_none_exnok t3 []

/-- Claim C10, amended: the only exceptions `_handle_error` lets escape are
the `socket.timeout` re-raise (possible exactly when the error value's
string contains `'timed out'`) and the three phase-specific disconnect
signals, and through `_handle_events` likewise only `socket.timeout` or a
phase-specific signal raised by a disconnect sequence recorded in the
call's actions can propagate — so the claim's "only phase-specific signals
cross the boundary" fails only for the `socket.timeout` re-raise. -/
theorem boundary_exception_classification :
    (∀ (sd : Bool) (ev : ErrVal) (s : TState) (e : Exn),
      (handle_error sd ev s).exn = some e →
      (e = Exn.socketTimeout ∧ ev.strTimedOut = true) ∨
      (PhaseExn e ∧ Act.checkState ∈ (handle_error sd ev s).acts)) ∧
    (∀ (sd : Bool) (events : Nat) (er : Option ErrVal) (wo : Bool)
        (sendTr : List SendRes) (recvTr : List RecvRes) (s : TState) (e : Exn),
      (handle_events sd events er wo sendTr recvTr s).exn = some e →
      e = Exn.socketTimeout ∨
      (PhaseExn e ∧
        Act.checkState ∈ (handle_events sd events er wo sendTr recvTr s).acts)) :=
  ⟨handle_error_exn,
   fun sd events er wo sendTr recvTr s =>
     handle_events_exnok sd events er wo sendTr recvTr s⟩

/-- Witness for the amended C10: the classification applied to the concrete
timed-out error value on the open sample state. -/
theorem boundary_exception_classification_witness :
    (Exn.socketTimeout = Exn.socketTimeout ∧ evTimedOut.strTimedOut = true) ∨
    (PhaseExn Exn.socketTimeout ∧
      Act.checkState ∈ (handle_error false evTimedOut sOpen).acts) :=
  boundary_exception_classification.1 false evTimedOut sOpen Exn.socketTimeout
    (by decide)

/-- Counterexample to C10 as stated: an error value whose string contains
`'timed out'` makes `_handle_error` (reached from `_handle_events`) raise
`socket.timeout` — not one of the three phase-specific disconnect signals —
across the public boundary, before any disconnect happens. -/
theorem timed_out_error_raises_socket_timeout :
    (handle_events false ERROR (some evTimedOut) false [] [] sOpen).exn
      = some Exn.socketTimeout ∧
    ¬ PhaseExn Exn.socketTimeout ∧
    (handle_events false ERROR (some evTimedOut) false [] [] sOpen).st = sOpen := by
  refine ⟨by decide, ?_, by decide⟩
  simp [PhaseExn]

end BaseConn
